import Mathlib

/-!
Verification of the OraFlow ADB bridge (`src/mcp_servers/adb_bridge.py`).

The development shallowly embeds the bridge's pure classification engine
(`ADBBridge.__init__` pattern tables, `parse_log_line`, `_get_error_severity`)
and its lifecycle operations (`send_error_to_desktop`, `stop_adb_logcat`,
`stop_monitoring`, `start_monitoring`) as executable Lean functions, and
proves or refutes the specification's claims about them.

Strings are modeled as `List Char` where convenient; Python operations
(`str.strip`, `str.split(' ', 5)`, compiled-regex `search`) are translated
with their exact semantics on the inputs relevant here, including Python's
behavior of keeping empty fields when splitting on an explicit separator.
-/

/-- The whitespace characters stripped by Python's `str.strip()` (ASCII range;
the patterns and guards of this module never distinguish non-ASCII whitespace,
since an all-whitespace line can never match an error pattern). -/
def pyIsSpace (c : Char) : Bool :=
  c == ' ' || c == '\t' || c == '\n' || c == '\r' || c == '\x0b' || c == '\x0c'

/-- Python `str.strip()` on a character list. -/
def pyStrip (cs : List Char) : List Char :=
  ((cs.dropWhile pyIsSpace).reverse.dropWhile pyIsSpace).reverse

/-- Worker for Python `str.split(' ', maxsplit)`: splits on every occurrence of
the single space character, keeping empty fields, performing at most `n`
splits; once `n` is exhausted the remainder (spaces included) becomes the last
field.  `acc` holds the current field reversed. -/
def pySplitGo (n : Nat) (acc : List Char) : List Char → List (List Char)
  | [] => [acc.reverse]
  | c :: rest =>
    if c == ' ' then
      match n with
      | 0 => pySplitGo 0 (c :: acc) rest
      | Nat.succ m => acc.reverse :: pySplitGo m [] rest
    else pySplitGo n (c :: acc) rest

/-- Python `line.split(' ', 5)` — the split used by `parse_log_line`. -/
def pySplit5 (cs : List Char) : List (List Char) :=
  pySplitGo 5 [] cs

/-- Case-sensitive "starts with" on character lists. -/
def startsWithLit : List Char → List Char → Bool
  | [], _ => true
  | _ :: _, [] => false
  | l :: ls, c :: cs => (l == c) && startsWithLit ls cs

/-- Case-sensitive substring containment (`lit` occurs somewhere in `s`). -/
def containsLit (lit : List Char) : List Char → Bool
  | [] => startsWithLit lit []
  | c :: rest => startsWithLit lit (c :: rest) || containsLit lit rest

/-- Case-insensitive "starts with" (both sides lowered, as with
`re.IGNORECASE` over the ASCII literals used in this module). -/
def startsWithCI : List Char → List Char → Bool
  | [], _ => true
  | _ :: _, [] => false
  | l :: ls, c :: cs => (l.toLower == c.toLower) && startsWithCI ls cs

/-- `re.search` semantics of a case-insensitive literal pattern: the literal
occurs (case-insensitively) somewhere in the subject. -/
def searchLitCI (lit : List Char) : List Char → Bool
  | [] => startsWithCI lit []
  | c :: rest => startsWithCI lit (c :: rest) || searchLitCI lit rest

/-- `re.search` semantics of a case-insensitive pattern of the shape
`LITERAL(.+)` : the literal occurs somewhere, followed by at least one
character other than a newline (Python's `.` does not match `'\n'`). -/
def searchLitPlusCI (lit : List Char) : List Char → Bool
  | [] => false
  | c :: rest =>
    (startsWithCI lit (c :: rest) &&
      (match (c :: rest).drop lit.length with
       | [] => false
       | d :: _ => !(d == '\n'))) || searchLitPlusCI lit rest

/-! ### The error-pattern table of `ADBBridge.__init__`

Each `re_...` definition is the `search` semantics of one compiled pattern of
the `self.error_patterns` dictionary, in the dictionary's insertion order.
-/

/-- `re.compile(r'FATAL EXCEPTION: (.+)', re.IGNORECASE)`. -/
def re_fatal_exception (s : List Char) : Bool :=
  searchLitPlusCI "FATAL EXCEPTION: ".data s

/-- `re.compile(r'java\.lang\.NullPointerException', re.IGNORECASE)`. -/
def re_null_pointer (s : List Char) : Bool :=
  searchLitCI "java.lang.NullPointerException".data s

/-- `re.compile(r'OutOfMemoryError', re.IGNORECASE)`. -/
def re_out_of_memory (s : List Char) : Bool :=
  searchLitCI "OutOfMemoryError".data s

/-- `re.compile(r'Permission denied', re.IGNORECASE)`. -/
def re_permission_denied (s : List Char) : Bool :=
  searchLitCI "Permission denied".data s

/-- `re.compile(r'java\.net\.ConnectException', re.IGNORECASE)`. -/
def re_network_error (s : List Char) : Bool :=
  searchLitCI "java.net.ConnectException".data s

/-- `re.compile(r'java\.io\.FileNotFoundException', re.IGNORECASE)`. -/
def re_storage_error (s : List Char) : Bool :=
  searchLitCI "java.io.FileNotFoundException".data s

/-- `re.compile(r'ANR in (.+)', re.IGNORECASE)`. -/
def re_crash_anr (s : List Char) : Bool :=
  searchLitPlusCI "ANR in ".data s

/-- The source's `re.compile(r'*** FATAL EXCEPTION IN SYSTEM PROCESS',
re.IGNORECASE)` does not compile (leading `*` has nothing to repeat — see
`compile_patterns` / `error_pattern_sources` below).  For the classification
table this entry is modeled from the spec: "body indicates a fatal exception
in the system process", i.e. the evidently intended literal search.  No claim
about classification depends on this matcher, because every line relevant to a
claim is decided by an earlier entry of the table. -/
def re_native_crash (s : List Char) : Bool :=
  searchLitCI "*** FATAL EXCEPTION IN SYSTEM PROCESS".data s

/-- `re.compile(r'SecurityException', re.IGNORECASE)`. -/
def re_security_exception (s : List Char) : Bool :=
  searchLitCI "SecurityException".data s

/-- `re.compile(r'IllegalStateException', re.IGNORECASE)`. -/
def re_illegal_state (s : List Char) : Bool :=
  searchLitCI "IllegalStateException".data s

/-- `re.compile(r'RuntimeException', re.IGNORECASE)`. -/
def re_runtime_exception (s : List Char) : Bool :=
  searchLitCI "RuntimeException".data s

/-- `self.error_patterns`, in the source's insertion (= iteration) order. -/
def error_patterns : List (String × (List Char → Bool)) :=
  [("fatal_exception", re_fatal_exception),
   ("null_pointer", re_null_pointer),
   ("out_of_memory", re_out_of_memory),
   ("permission_denied", re_permission_denied),
   ("network_error", re_network_error),
   ("storage_error", re_storage_error),
   ("crash_anr", re_crash_anr),
   ("native_crash", re_native_crash),
   ("security_exception", re_security_exception),
   ("illegal_state", re_illegal_state),
   ("runtime_exception", re_runtime_exception)]

/-- `re.compile(r'camera|CAMERA', re.IGNORECASE)`. -/
def re_perm_camera (s : List Char) : Bool :=
  searchLitCI "camera".data s || searchLitCI "CAMERA".data s

/-- `re.compile(r'location|gps|GPS|ACCESS_FINE_LOCATION', re.IGNORECASE)`. -/
def re_perm_location (s : List Char) : Bool :=
  searchLitCI "location".data s || searchLitCI "gps".data s ||
    searchLitCI "GPS".data s || searchLitCI "ACCESS_FINE_LOCATION".data s

/-- `re.compile(r'storage|external|READ_EXTERNAL_STORAGE|WRITE_EXTERNAL_STORAGE', re.IGNORECASE)`. -/
def re_perm_storage (s : List Char) : Bool :=
  searchLitCI "storage".data s || searchLitCI "external".data s ||
    searchLitCI "READ_EXTERNAL_STORAGE".data s ||
    searchLitCI "WRITE_EXTERNAL_STORAGE".data s

/-- `re.compile(r'network|internet|INTERNET|ACCESS_NETWORK_STATE', re.IGNORECASE)`. -/
def re_perm_network (s : List Char) : Bool :=
  searchLitCI "network".data s || searchLitCI "internet".data s ||
    searchLitCI "INTERNET".data s || searchLitCI "ACCESS_NETWORK_STATE".data s

/-- `re.compile(r'phone_state|READ_PHONE_STATE', re.IGNORECASE)`. -/
def re_perm_phone_state (s : List Char) : Bool :=
  searchLitCI "phone_state".data s || searchLitCI "READ_PHONE_STATE".data s

/-- `re.compile(r'contacts|READ_CONTACTS|WRITE_CONTACTS', re.IGNORECASE)`. -/
def re_perm_contacts (s : List Char) : Bool :=
  searchLitCI "contacts".data s || searchLitCI "READ_CONTACTS".data s ||
    searchLitCI "WRITE_CONTACTS".data s

/-- `re.compile(r'sms|SEND_SMS|READ_SMS', re.IGNORECASE)`. -/
def re_perm_sms (s : List Char) : Bool :=
  searchLitCI "sms".data s || searchLitCI "SEND_SMS".data s ||
    searchLitCI "READ_SMS".data s

/-- `self.permission_patterns`, in the source's insertion order. -/
def permission_patterns : List (String × (List Char → Bool)) :=
  [("camera", re_perm_camera),
   ("location", re_perm_location),
   ("storage", re_perm_storage),
   ("network", re_perm_network),
   ("phone_state", re_perm_phone_state),
   ("contacts", re_perm_contacts),
   ("sms", re_perm_sms)]

/-! ### Package-name extraction

`re.search(r'at ([a-zA-Z0-9_\.]+)\.', message)` — note: case-sensitive.
The group is the maximal run of class characters following `"at "`, cut just
before its last dot (greedy `+` backtracking one step to satisfy the final
`\.`); the group must be nonempty. -/

/-- The character class `[a-zA-Z0-9_\.]` (ASCII). -/
def pkgClassChar (c : Char) : Bool :=
  c.isAlpha || c.isDigit || c == '_' || c == '.'

/-- Longest proper prefix of the reversed run lying before its last dot,
`none` when the run has no dot with at least one character before it. -/
def beforeLastDotRev : List Char → Option (List Char)
  | [] => none
  | '.' :: rest => if rest.isEmpty then none else some rest.reverse
  | _ :: rest => beforeLastDotRev rest

/-- Match of `at ([a-zA-Z0-9_\.]+)\.` anchored at the head of `s`, returning
the captured group. -/
def pkgMatchAt (s : List Char) : Option (List Char) :=
  if startsWithLit "at ".data s then
    beforeLastDotRev ((s.drop 3).takeWhile pkgClassChar).reverse
  else none

/-- `re.search` of the package pattern: leftmost starting position wins. -/
def pkgSearch : List Char → Option (List Char)
  | [] => none
  | c :: rest =>
    match pkgMatchAt (c :: rest) with
    | some g => some g
    | none => pkgSearch rest

/-! ### `_get_error_severity` and `parse_log_line` -/

/-- `ADBBridge._get_error_severity`. -/
def _get_error_severity (error_type : String) : String :=
  if error_type ∈ (["fatal_exception", "native_crash", "out_of_memory"] : List String) then
    "critical"
  else if error_type ∈ (["permission_denied"] : List String) then
    "high"
  else
    "medium"

/-- The record returned by `parse_log_line` (the `'android_error'` dict). -/
structure AndroidError where
  type : String
  timestamp : String
  device_id : Option String
  error_type : String
  permission_type : Option String
  package_name : Option String
  message : String
  full_log_line : String
  severity : String
deriving DecidableEq

/-- The region of `parse_log_line` inside its `try:` block, applied after the
two early-return guards: first-match classification over `error_patterns`,
permission sub-classification when the match is `permission_denied`, package
extraction, and construction of the result dict.  Every operation here is
total on `str` inputs, which is what `parse_log_line_exc` below records. -/
def classify_body (device_id : Option String) (cs : List Char)
    (parts : List (List Char)) : Option AndroidError :=
  let timestamp := parts.getD 0 [] ++ ' ' :: parts.getD 1 [] ++ ' ' :: parts.getD 2 []
  let message := parts.getD 5 []
  let error_type := (error_patterns.find? (fun p => p.snd message)).map Prod.fst
  let permission_type :=
    if error_type == some "permission_denied" then
      (permission_patterns.find? (fun p => p.snd message)).map Prod.fst
    else none
  let package_name := pkgSearch message
  match error_type with
  | some et =>
    some { type := "android_error"
           timestamp := String.mk timestamp
           device_id := device_id
           error_type := et
           permission_type := permission_type
           package_name := package_name.map String.mk
           message := String.mk (pyStrip message)
           full_log_line := String.mk (pyStrip cs)
           severity := _get_error_severity et }
  | none => none

/-- `ADBBridge.parse_log_line` (the `device_id` parameter stands for the
`self.device_id` field read inside the method). -/
def parse_log_line (device_id : Option String) (line : String) : Option AndroidError :=
  if (pyStrip line.data).isEmpty then none
  else
    let parts := pySplit5 line.data
    if parts.length < 6 then none
    else classify_body device_id line.data parts

/-- The `try:` region of `parse_log_line` with its exception behavior made
explicit: in the source every operation inside the block (f-string
formatting, compiled-pattern `search`, `re.search`, `_get_error_severity`,
dict construction) is total on `str` inputs, so the computation always
returns `ok`. -/
def parse_log_line_try (device_id : Option String) (cs : List Char)
    (parts : List (List Char)) : Except String (Option AndroidError) :=
  Except.ok (classify_body device_id cs parts)

/-- `parse_log_line` with exception plumbing made explicit: the guards run
outside the `try`, and the `except Exception` clause turns any error from the
body into `None`. -/
def parse_log_line_exc (device_id : Option String) (line : String) :
    Except String (Option AndroidError) :=
  if (pyStrip line.data).isEmpty then Except.ok none
  else
    let parts := pySplit5 line.data
    if parts.length < 6 then Except.ok none
    else
      match parse_log_line_try device_id line.data parts with
      | Except.ok r => Except.ok r
      | Except.error _ => Except.ok none

/-! ### Regex compilation of `ADBBridge.__init__`

`__init__` builds `self.error_patterns` as a dict literal whose values are
`re.compile(...)` calls, evaluated in order.  We model whether each pattern
string compiles: Python's `re` raises `re.error("nothing to repeat")` for a
quantifier (`*`, `+`, `?`) with no preceding atom.  The checker below covers
exactly the constructs appearing in this module's patterns: literal
characters, `\`-escapes, `.`, groups, alternation, character classes and the
three quantifiers. -/

/-- Is `c` one of the regex quantifiers `*`, `+`, `?`. -/
def reQuantifier (c : Char) : Bool :=
  c == '*' || c == '+' || c == '?'

/-- Consume a character class after its opening `[`, returning the remainder
after the closing `]` (`none` when unterminated). -/
def reClassSpan : List Char → Option (List Char)
  | [] => none
  | '\\' :: [] => none
  | '\\' :: _ :: rest => reClassSpan rest
  | ']' :: rest => some rest
  | _ :: rest => reClassSpan rest

/-- Fuel-driven scan of a pattern: `prevAtom` records whether a quantifier may
attach to the previous token, `depth` the number of open groups.  Returns
`true` iff `re.compile` accepts the pattern (over the construct subset used in
this module). -/
def reCheck : Nat → List Char → Bool → Nat → Bool
  | _, [], _, depth => depth == 0
  | 0, _ :: _, _, _ => false
  | Nat.succ fuel, c :: rest, prevAtom, depth =>
    if c == '\\' then
      match rest with
      | [] => false
      | _ :: rest2 => reCheck fuel rest2 true depth
    else if reQuantifier c then
      prevAtom && reCheck fuel rest false depth
    else if c == '(' then reCheck fuel rest false (depth + 1)
    else if c == ')' then
      match depth with
      | 0 => false
      | Nat.succ d => reCheck fuel rest true d
    else if c == '|' then reCheck fuel rest false depth
    else if c == '[' then
      match reClassSpan rest with
      | none => false
      | some rest2 => reCheck fuel rest2 true depth
    else reCheck fuel rest true depth

/-- Does `re.compile` accept the pattern string. -/
def re_compile_ok (pat : String) : Bool :=
  reCheck (pat.data.length + 1) pat.data false 0

/-- The eleven `(name, pattern string)` entries of the `self.error_patterns`
dict literal, exactly as written in the source and in the source's order. -/
def error_pattern_sources : List (String × String) :=
  [("fatal_exception", "FATAL EXCEPTION: (.+)"),
   ("null_pointer", "java\\.lang\\.NullPointerException"),
   ("out_of_memory", "OutOfMemoryError"),
   ("permission_denied", "Permission denied"),
   ("network_error", "java\\.net\\.ConnectException"),
   ("storage_error", "java\\.io\\.FileNotFoundException"),
   ("crash_anr", "ANR in (.+)"),
   ("native_crash", "*** FATAL EXCEPTION IN SYSTEM PROCESS"),
   ("security_exception", "SecurityException"),
   ("illegal_state", "IllegalStateException"),
   ("runtime_exception", "RuntimeException")]

/-- Evaluation of the dict literal of `__init__`: each `re.compile` runs in
order and the first failing pattern raises, aborting construction with that
rule's name as the error. -/
def compile_patterns : List (String × String) → Except String (List (String × String))
  | [] => Except.ok []
  | (n, p) :: rest =>
    if re_compile_ok p then
      match compile_patterns rest with
      | Except.ok l => Except.ok ((n, p) :: l)
      | Except.error e => Except.error e
    else Except.error n

/-! ### Lifecycle model

State of an `ADBBridge` object as far as the lifecycle methods read and write
it.  A connection object is tracked together with whether `close()` has been
called on it; `desktop_connection = none` models the field holding `None`. -/

/-- Whether `close()` has been called on the websocket object held in
`self.desktop_connection`. -/
inductive ConnState
  | connOpen
  | connClosed
deriving DecidableEq

/-- The mutable fields of `ADBBridge` used by the lifecycle methods. -/
structure BridgeState where
  desktop_connection : Option ConnState
  is_monitoring : Bool
  device_id : Option String
  adb_process : Option Unit
deriving DecidableEq

/-- An outbound Event message as finalized by `send_error_to_desktop`:
the classifier's record plus the two stamped metadata fields. -/
structure SentEvent where
  data : AndroidError
  source : String
  timestamp_sent : Nat
deriving DecidableEq

/-- Observable outcome of one `send_error_to_desktop` call. -/
inductive SendResult
  | dropped_no_connection
  | sent (msg : SentEvent)
  | send_failed
deriving DecidableEq

/-- `ADBBridge.send_error_to_desktop`.  `transport_ok` is the behavior of the
underlying websocket `send` on this call; `now` is `time.time()`.  When
`self.desktop_connection` is `None` the message is dropped with a warning;
otherwise the event is stamped with `source='adb_bridge'` and
`timestamp_sent=now` and the send is attempted; a transport failure (or a
send on an already-closed connection) is caught and logged — the method
changes no field of `self` in any branch. -/
def send_error_to_desktop (st : BridgeState) (transport_ok : Bool) (now : Nat)
    (e : AndroidError) : BridgeState × SendResult :=
  match st.desktop_connection with
  | none => (st, SendResult.dropped_no_connection)
  | some c =>
    match c, transport_ok with
    | ConnState.connOpen, true =>
      (st, SendResult.sent { data := e, source := "adb_bridge", timestamp_sent := now })
    | _, _ => (st, SendResult.send_failed)

/-- `ADBBridge.stop_adb_logcat`: terminates (or, after the grace period,
kills) the subprocess when a handle is held, then clears the handle; a no-op
when `self.adb_process` is `None`. -/
def stop_adb_logcat (st : BridgeState) : BridgeState :=
  match st.adb_process with
  | none => st
  | some _ => { st with adb_process := none }

/-- `ADBBridge.stop_monitoring`.  Returns immediately when not monitoring;
otherwise clears `is_monitoring`, stops the logcat subprocess, sends a
best-effort "stopped" status message (`stop_send_ok`; failures are caught and
only logged) and calls `close()` on the connection object when one is held
(failures likewise caught).  The `desktop_connection` field itself is never
cleared. -/
def stop_monitoring (st : BridgeState) (_stop_send_ok : Bool) : BridgeState :=
  if st.is_monitoring then
    let st1 := stop_adb_logcat { st with is_monitoring := false }
    match st1.desktop_connection with
    | none => st1
    | some _ => { st1 with desktop_connection := some ConnState.connClosed }
  else st

/-- Environment behavior for one `start_monitoring` call: whether
`connect_to_desktop` succeeds (its initial status send included), the device
list returned by `adb devices`, whether `subprocess.Popen` of logcat
succeeds, whether the "active" status send succeeds, the lines the logcat
process emits before exiting, per-line transport behavior, and the transport
behavior of the "stopped" status send. -/
structure StartEnv where
  connect_ok : Bool
  devices : List String
  launch_ok : Bool
  active_send_ok : Bool
  log_lines : List String
  line_transport_ok : Bool
  stop_send_ok : Bool
deriving DecidableEq

/-- The body of the `while` loop of `monitor_adb_logcat` over the lines the
subprocess emits before exiting: classify each line and forward produced
events; `send_error_to_desktop` never changes bridge state, so only the list
of send outcomes is accumulated. -/
def monitor_loop (st : BridgeState) (transport_ok : Bool) : List String → List SendResult
  | [] => []
  | l :: rest =>
    match parse_log_line st.device_id l with
    | some e => (send_error_to_desktop st transport_ok 0 e).snd :: monitor_loop st transport_ok rest
    | none => monitor_loop st transport_ok rest

/-- `ADBBridge.monitor_adb_logcat`: returns at once when no subprocess handle
is held; otherwise runs the read/classify/send loop while `is_monitoring` is
set until the process exits, and in its `finally:` block stops the logcat
subprocess. -/
def monitor_adb_logcat (st : BridgeState) (transport_ok : Bool)
    (lines : List String) : BridgeState × List SendResult :=
  match st.adb_process with
  | none => (st, [])
  | some _ =>
    (stop_adb_logcat st,
      if st.is_monitoring then monitor_loop st transport_ok lines else [])

/-- `ADBBridge.start_monitoring`.  Rejects when already monitoring.  The
`try:` covers connect, device selection, logcat launch, the "active" status
send and the monitor loop; a connect failure or a failed "active" send lands
in `except`, which calls `stop_monitoring`.  Device selection returning no
device and a logcat launch failure `return` directly — without closing the
connection that was just opened. -/
def start_monitoring (st : BridgeState) (env : StartEnv) : BridgeState × List SendResult :=
  if st.is_monitoring then (st, [])
  else if env.connect_ok = false then
    (stop_monitoring st env.stop_send_ok, [])
  else
    let st1 := { st with desktop_connection := some ConnState.connOpen }
    match env.devices.head? with
    | none => ({ st1 with device_id := none }, [])
    | some d =>
      let st2 := { st1 with device_id := some d }
      if env.launch_ok = false then (st2, [])
      else
        let st3 := { st2 with adb_process := some (), is_monitoring := true }
        if env.active_send_ok = false then
          (stop_monitoring st3 env.stop_send_ok, [])
        else
          monitor_adb_logcat st3 env.line_transport_ok env.log_lines

/-- Worker for `wsFields`; `acc` holds the current field reversed. -/
def wsFieldsGo (acc : List Char) : List Char → List (List Char)
  | [] => if acc.isEmpty then [] else [acc.reverse]
  | c :: rest =>
    if pyIsSpace c then
      if acc.isEmpty then wsFieldsGo [] rest else acc.reverse :: wsFieldsGo [] rest
    else wsFieldsGo (c :: acc) rest

/-- Whitespace-separated fields of a line — Python `str.split()` with no
arguments, splitting on runs of whitespace with no empty fields.  This is the
reading of "whitespace-separated fields" in the specification; the code
itself splits with `line.split(' ', 5)` (see `pySplit5`), which differs. -/
def wsFields (cs : List Char) : List (List Char) :=
  wsFieldsGo [] cs

/-! ### Helper lemmas -/

theorem startsWithLit_append_split (a b s : List Char)
    (h : startsWithLit (a ++ b) s = true) :
    startsWithCI a s = true ∧ startsWithLit b (s.drop a.length) = true := by
  induction a generalizing s with
  | nil => exact ⟨rfl, by simpa using h⟩
  | cons x xs ih =>
    cases s with
    | nil => simp [startsWithLit] at h
    | cons c cs =>
      rw [List.cons_append] at h
      simp only [startsWithLit, Bool.and_eq_true, beq_iff_eq] at h
      obtain ⟨hx, hrest⟩ := h
      obtain ⟨h1, h2⟩ := ih cs hrest
      subst hx
      refine ⟨?_, by simpa using h2⟩
      simp [startsWithCI, h1]

theorem startsWithLit_imp_CI (a s : List Char) (h : startsWithLit a s = true) :
    startsWithCI a s = true :=
  (startsWithLit_append_split a [] s (by simpa using h)).1

theorem contains_imp_searchCI (lit s : List Char) (h : containsLit lit s = true) :
    searchLitCI lit s = true := by
  induction s with
  | nil => exact startsWithLit_imp_CI lit [] h
  | cons c cs ih =>
    simp only [containsLit, Bool.or_eq_true] at h
    rcases h with h | h
    · simp [searchLitCI, startsWithLit_imp_CI _ _ h]
    · simp [searchLitCI, ih h]

theorem contains_imp_searchPlus (lit : List Char) (ch : Char) (t s : List Char)
    (hch : (ch == '\n') = false)
    (h : containsLit (lit ++ ch :: t) s = true) :
    searchLitPlusCI lit s = true := by
  induction s with
  | nil =>
    have h2 := (startsWithLit_append_split lit (ch :: t) [] h).2
    simp [startsWithLit] at h2
  | cons c cs ih =>
    simp only [containsLit, Bool.or_eq_true] at h
    rcases h with h | h
    · obtain ⟨h1, h2⟩ := startsWithLit_append_split lit (ch :: t) (c :: cs) h
      cases hu : (c :: cs).drop lit.length with
      | nil => rw [hu] at h2; simp [startsWithLit] at h2
      | cons d u =>
        rw [hu] at h2
        simp only [startsWithLit, Bool.and_eq_true, beq_iff_eq] at h2
        obtain ⟨hd, _⟩ := h2
        subst hd
        simp [searchLitPlusCI, h1, hu, hch]
    · simp [searchLitPlusCI, ih h]

theorem parse_log_line_eq_body (dev : Option String) (line : String)
    (h1 : (pyStrip line.data).isEmpty = false)
    (h2 : ¬ (pySplit5 line.data).length < 6) :
    parse_log_line dev line = classify_body dev line.data (pySplit5 line.data) := by
  simp [parse_log_line, h1, h2]

theorem find?_error_patterns_fatal (msg : List Char)
    (hm : re_fatal_exception msg = true) :
    error_patterns.find? (fun p => p.snd msg) =
      some ("fatal_exception", re_fatal_exception) := by
  unfold error_patterns
  exact List.find?_cons_of_pos _ hm

theorem find?_error_patterns_perm (msg : List Char)
    (hnf : re_fatal_exception msg = false)
    (hnn : re_null_pointer msg = false)
    (hno : re_out_of_memory msg = false)
    (hp : re_permission_denied msg = true) :
    error_patterns.find? (fun p => p.snd msg) =
      some ("permission_denied", re_permission_denied) := by
  unfold error_patterns
  rw [List.find?_cons_of_neg _ (by simp [hnf]), List.find?_cons_of_neg _ (by simp [hnn]),
    List.find?_cons_of_neg _ (by simp [hno])]
  exact List.find?_cons_of_pos _ hp

theorem find?_permission_camera (msg : List Char)
    (hc : containsLit "CAMERA".data msg = true) :
    permission_patterns.find? (fun p => p.snd msg) = some ("camera", re_perm_camera) := by
  unfold permission_patterns
  apply List.find?_cons_of_pos
  show re_perm_camera msg = true
  unfold re_perm_camera
  rw [contains_imp_searchCI _ _ hc]
  simp

/-! ### Concrete fixtures used by witnesses and counterexamples -/

/-- A concrete classifier output, used to exercise the channel operations. -/
def sampleEvent : AndroidError :=
  { type := "android_error", timestamp := "01-01 00:00:00.000",
    device_id := some "emulator-5554", error_type := "fatal_exception",
    permission_type := none, package_name := none,
    message := "FATAL EXCEPTION: main", full_log_line := "raw",
    severity := "critical" }

/-- A bridge in an active monitoring session with an open connection. -/
def stConnected : BridgeState :=
  { desktop_connection := some ConnState.connOpen, is_monitoring := true,
    device_id := some "emulator-5554", adb_process := some () }

/-- A freshly constructed bridge: nothing connected, nothing running. -/
def stIdle : BridgeState :=
  { desktop_connection := none, is_monitoring := false,
    device_id := none, adb_process := none }

/-- Environment for a `start_monitoring` call in which the connection
succeeds but `adb devices` enumerates no device. -/
def envNoDevice : StartEnv :=
  { connect_ok := true, devices := [], launch_ok := true, active_send_ok := true,
    log_lines := [], line_transport_ok := true, stop_send_ok := true }

/-! ### Claims -/

/-- Claim C1 (code bug): constructing the pattern catalog does not succeed.
Evaluating the `error_patterns` dict literal of `ADBBridge.__init__` raises
`re.error` ("nothing to repeat") at the `native_crash` entry, whose pattern
`r'*** FATAL EXCEPTION IN SYSTEM PROCESS'` begins with an unescaped
quantifier; every instantiation of `ADBBridge` therefore fails.  Moreover the
names in the source's order are fatal_exception, null_pointer, out_of_memory,
permission_denied, network_error, storage_error, crash_anr, native_crash,
security_exception, illegal_state, runtime_exception — not the order the
claim lists (which puts native_crash second and null_pointer fourth). -/
theorem C1_catalog_construction_raises :
    compile_patterns error_pattern_sources = Except.error "native_crash" ∧
    error_pattern_sources.map Prod.fst =
      ["fatal_exception", "null_pointer", "out_of_memory", "permission_denied",
       "network_error", "storage_error", "crash_anr", "native_crash",
       "security_exception", "illegal_state", "runtime_exception"] := by
  exact ⟨rfl, rfl⟩

/-- Claim C2 counterexample: the line `"FATAL EXCEPTION: foo"` contains the
text "FATAL EXCEPTION: foo", yet `parse_log_line` returns nothing, because
the line splits into fewer than 6 space-separated fields — the pattern is
only ever matched against the sixth field. -/
theorem C2_counterexample :
    containsLit "FATAL EXCEPTION: foo".data "FATAL EXCEPTION: foo".data = true ∧
    parse_log_line (some "emulator-5554") "FATAL EXCEPTION: foo" = none := by
  exact ⟨by decide, by decide⟩

/-- Claim C2 (amended): for every line that passes the parse guards (not
whitespace-only and at least 6 space-split fields) and whose message body —
the sixth field — contains "FATAL EXCEPTION: foo", `parse_log_line` returns
an Event with `error_type = "fatal_exception"` and `severity = "critical"`. -/
theorem C2_fatal_classified (dev : Option String) (line : String)
    (h1 : (pyStrip line.data).isEmpty = false)
    (h2 : ¬ (pySplit5 line.data).length < 6)
    (h3 : containsLit "FATAL EXCEPTION: foo".data ((pySplit5 line.data).getD 5 []) = true) :
    (parse_log_line dev line).map AndroidError.error_type = some "fatal_exception" ∧
    (parse_log_line dev line).map AndroidError.severity = some "critical" := by
  have hm : re_fatal_exception ((pySplit5 line.data).getD 5 []) = true := by
    show searchLitPlusCI "FATAL EXCEPTION: ".data ((pySplit5 line.data).getD 5 []) = true
    apply contains_imp_searchPlus "FATAL EXCEPTION: ".data 'f' "oo".data _ (by decide)
    have he : "FATAL EXCEPTION: ".data ++ 'f' :: "oo".data = "FATAL EXCEPTION: foo".data := by
      decide
    rw [he]
    exact h3
  rw [parse_log_line_eq_body dev line h1 h2]
  simp only [classify_body]
  rw [find?_error_patterns_fatal _ hm]
  have hsev : _get_error_severity "fatal_exception" = "critical" := by decide
  simp [hsev]

/-- Witness for `C2_fatal_classified` at a concrete 6-field logcat line. -/
theorem C2_fatal_classified_witness :
    (pyStrip "01-01 00:00:00.000 1 1 E FATAL EXCEPTION: foo".data).isEmpty = false ∧
    ¬ (pySplit5 "01-01 00:00:00.000 1 1 E FATAL EXCEPTION: foo".data).length < 6 ∧
    containsLit "FATAL EXCEPTION: foo".data
      ((pySplit5 "01-01 00:00:00.000 1 1 E FATAL EXCEPTION: foo".data).getD 5 []) = true ∧
    ((parse_log_line none "01-01 00:00:00.000 1 1 E FATAL EXCEPTION: foo").map
        AndroidError.error_type = some "fatal_exception" ∧
      (parse_log_line none "01-01 00:00:00.000 1 1 E FATAL EXCEPTION: foo").map
        AndroidError.severity = some "critical") :=
  ⟨by decide, by decide, by decide,
    C2_fatal_classified none "01-01 00:00:00.000 1 1 E FATAL EXCEPTION: foo"
      (by decide) (by decide) (by decide)⟩

/-- Claim C3 counterexample: the line `"t     OutOfMemoryError"` (one
character, five spaces, and an error signature) has only 2 whitespace-
separated fields — fewer than 6 — yet `parse_log_line` returns an Event: the
code counts fields with `line.split(' ', 5)`, where consecutive spaces
produce empty fields, so this line has exactly 6 space-split fields. -/
theorem C3_counterexample :
    (wsFields "t     OutOfMemoryError".data).length = 2 ∧
    (parse_log_line (some "emulator-5554") "t     OutOfMemoryError").isSome = true := by
  exact ⟨by decide, by decide⟩

/-- Claim C3 (amended): for every line that is empty, whitespace-only, or
splits into fewer than 6 fields under `line.split(' ', 5)` — splitting on the
single space character, keeping empty fields, at most 5 splits —
`parse_log_line` returns nothing. -/
theorem C3_short_lines (dev : Option String) (line : String)
    (h : (pyStrip line.data).isEmpty = true ∨ (pySplit5 line.data).length < 6) :
    parse_log_line dev line = none := by
  unfold parse_log_line
  rcases h with h | h
  · simp [h]
  · by_cases h1 : (pyStrip line.data).isEmpty <;> simp [h1, h]

/-- Witness for `C3_short_lines` at a concrete short line. -/
theorem C3_short_lines_witness :
    ((pySplit5 "ANR in com.example".data).length < 6) ∧
    parse_log_line none "ANR in com.example" = none :=
  ⟨by decide, C3_short_lines none "ANR in com.example" (Or.inr (by decide))⟩

/-- Claim C4 (confirmed): rules are tried in the fixed order of
`error_patterns` and the first match wins; in particular a parseable line
whose body matches both the `fatal_exception` pattern and the
`runtime_exception` pattern is classified `fatal_exception`, which precedes
`runtime_exception` in the table. -/
theorem C4_first_match_wins (dev : Option String) (line : String)
    (h1 : (pyStrip line.data).isEmpty = false)
    (h2 : ¬ (pySplit5 line.data).length < 6)
    (hf : re_fatal_exception ((pySplit5 line.data).getD 5 []) = true)
    (_hr : re_runtime_exception ((pySplit5 line.data).getD 5 []) = true) :
    (parse_log_line dev line).map AndroidError.error_type = some "fatal_exception" := by
  rw [parse_log_line_eq_body dev line h1 h2]
  simp only [classify_body]
  rw [find?_error_patterns_fatal _ hf]
  simp

/-- Witness for `C4_first_match_wins` at a concrete line whose body contains
both signatures. -/
theorem C4_first_match_wins_witness :
    (pyStrip "01-01 00:00:00.000 1 1 E FATAL EXCEPTION: RuntimeException".data).isEmpty
      = false ∧
    ¬ (pySplit5 "01-01 00:00:00.000 1 1 E FATAL EXCEPTION: RuntimeException".data).length < 6 ∧
    re_fatal_exception
      ((pySplit5 "01-01 00:00:00.000 1 1 E FATAL EXCEPTION: RuntimeException".data).getD 5 [])
      = true ∧
    re_runtime_exception
      ((pySplit5 "01-01 00:00:00.000 1 1 E FATAL EXCEPTION: RuntimeException".data).getD 5 [])
      = true ∧
    (parse_log_line none "01-01 00:00:00.000 1 1 E FATAL EXCEPTION: RuntimeException").map
      AndroidError.error_type = some "fatal_exception" :=
  ⟨by decide, by decide, by decide, by decide,
    C4_first_match_wins none "01-01 00:00:00.000 1 1 E FATAL EXCEPTION: RuntimeException"
      (by decide) (by decide) (by decide) (by decide)⟩

/-- Claim C5 counterexample: a parseable line whose body contains both the
permission-denial signature and the substring "CAMERA" but also a
fatal-exception signature yields `permission_type = none`, not `"camera"`:
the permission sub-rules run only when the matched error rule is
`permission_denied`, and here `fatal_exception` matches first. -/
theorem C5_counterexample :
    re_permission_denied
      ((pySplit5 "01-01 00:00:00.000 1 1 E FATAL EXCEPTION: CAMERA Permission denied".data).getD
        5 []) = true ∧
    containsLit "CAMERA".data
      ((pySplit5 "01-01 00:00:00.000 1 1 E FATAL EXCEPTION: CAMERA Permission denied".data).getD
        5 []) = true ∧
    (parse_log_line none "01-01 00:00:00.000 1 1 E FATAL EXCEPTION: CAMERA Permission denied").map
      AndroidError.permission_type = some none := by
  exact ⟨by decide, by decide, by decide⟩

/-- Claim C5 (amended): for every parseable line whose body contains a
permission-denial signature and the substring "CAMERA", and matches none of
the error rules that precede `permission_denied` in the table
(`fatal_exception`, `null_pointer`, `out_of_memory`), `parse_log_line`
returns an Event with `error_type = "permission_denied"` and
`permission_type = "camera"` — `camera` being the first permission sub-rule
and matched by the substring "CAMERA". -/
theorem C5_camera_classified (dev : Option String) (line : String)
    (h1 : (pyStrip line.data).isEmpty = false)
    (h2 : ¬ (pySplit5 line.data).length < 6)
    (hp : re_permission_denied ((pySplit5 line.data).getD 5 []) = true)
    (hc : containsLit "CAMERA".data ((pySplit5 line.data).getD 5 []) = true)
    (hnf : re_fatal_exception ((pySplit5 line.data).getD 5 []) = false)
    (hnn : re_null_pointer ((pySplit5 line.data).getD 5 []) = false)
    (hno : re_out_of_memory ((pySplit5 line.data).getD 5 []) = false) :
    (parse_log_line dev line).map AndroidError.error_type = some "permission_denied" ∧
    (parse_log_line dev line).map AndroidError.permission_type = some (some "camera") := by
  rw [parse_log_line_eq_body dev line h1 h2]
  simp only [classify_body]
  rw [find?_error_patterns_perm _ hnf hnn hno hp, find?_permission_camera _ hc]
  simp

/-- Witness for `C5_camera_classified` at a concrete permission-denial line. -/
theorem C5_camera_classified_witness :
    re_permission_denied
      ((pySplit5 "01-01 00:00:00.000 1 1 E Permission denied for CAMERA use".data).getD 5 [])
      = true ∧
    containsLit "CAMERA".data
      ((pySplit5 "01-01 00:00:00.000 1 1 E Permission denied for CAMERA use".data).getD 5 [])
      = true ∧
    ((parse_log_line none "01-01 00:00:00.000 1 1 E Permission denied for CAMERA use").map
        AndroidError.error_type = some "permission_denied" ∧
      (parse_log_line none "01-01 00:00:00.000 1 1 E Permission denied for CAMERA use").map
        AndroidError.permission_type = some (some "camera")) :=
  ⟨by decide, by decide,
    C5_camera_classified none "01-01 00:00:00.000 1 1 E Permission denied for CAMERA use"
      (by decide) (by decide) (by decide) (by decide) (by decide) (by decide) (by decide)⟩

/-- Claim C6 counterexample: after a mid-transport send failure on a
connected channel the failure is only logged — `desktop_connection` still
holds the open connection (no transition to disconnected), and the next send
is attempted over the transport again (its outcome is not the
dropped-with-warning branch reserved for `desktop_connection = None`). -/
theorem C6_counterexample :
    (send_error_to_desktop stConnected false 0 sampleEvent).snd = SendResult.send_failed ∧
    (send_error_to_desktop stConnected false 0 sampleEvent).fst.desktop_connection
      = some ConnState.connOpen ∧
    (send_error_to_desktop
        (send_error_to_desktop stConnected false 0 sampleEvent).fst
        false 1 sampleEvent).snd ≠ SendResult.dropped_no_connection := by
  exact ⟨by decide, by decide, by decide⟩

/-- Claim C6 (amended): when a send fails mid-transport the failure is
reported (logged) and the Event is dropped — never queued or retried — but
the channel's recorded state is unchanged: `send_error_to_desktop` alters no
field of the bridge, so subsequent Events are still attempted over the
transport; drop-with-warning happens only when `desktop_connection` is
`None`. -/
theorem C6_send_failure_state_unchanged (st : BridgeState) (c : ConnState) (now : Nat)
    (e : AndroidError) (h : st.desktop_connection = some c) :
    (send_error_to_desktop st false now e).fst = st ∧
    (send_error_to_desktop st false now e).snd = SendResult.send_failed := by
  unfold send_error_to_desktop
  rw [h]
  cases c <;> simp

/-- Witness for `C6_send_failure_state_unchanged` at the connected fixture. -/
theorem C6_send_failure_witness :
    stConnected.desktop_connection = some ConnState.connOpen ∧
    ((send_error_to_desktop stConnected false 7 sampleEvent).fst = stConnected ∧
      (send_error_to_desktop stConnected false 7 sampleEvent).snd = SendResult.send_failed) :=
  ⟨rfl, C6_send_failure_state_unchanged stConnected ConnState.connOpen 7 sampleEvent rfl⟩

/-- Claim C7 counterexample: starting from idle with a reachable desktop but
no device, `start_monitoring` opens the channel, finds no device and returns
to idle without starting a subprocess — but the channel it opened is left
OPEN, neither closed nor cleared, contradicting "with the channel it opened
already closed" and "every failure path … reaches idle with the connection
closed". -/
theorem C7_counterexample :
    (start_monitoring stIdle envNoDevice).fst.is_monitoring = false ∧
    (start_monitoring stIdle envNoDevice).fst.adb_process = none ∧
    (start_monitoring stIdle envNoDevice).fst.desktop_connection
      = some ConnState.connOpen := by
  exact ⟨by decide, by decide, by decide⟩

/-- Claim C7 (amended): when `start_monitoring` is called while not
monitoring, the connection succeeds and no device is enumerated, the session
returns to idle without starting any subprocess — but the connection it
opened remains open: the no-device path (like the logcat-launch-failure path)
returns before `is_monitoring` is set, so `stop_monitoring` inside the
`except` clause would return immediately and in fact is not even reached;
only failure paths after monitoring became active close the channel. -/
theorem C7_no_device_leaves_channel_open (st : BridgeState) (env : StartEnv)
    (h1 : st.is_monitoring = false) (h2 : env.connect_ok = true)
    (h3 : env.devices = []) :
    (start_monitoring st env).fst =
      { st with desktop_connection := some ConnState.connOpen, device_id := none } := by
  unfold start_monitoring
  rw [h1, h2, h3]
  simp

/-- Witness for `C7_no_device_leaves_channel_open` at the idle fixture. -/
theorem C7_no_device_witness :
    stIdle.is_monitoring = false ∧ envNoDevice.connect_ok = true ∧
    envNoDevice.devices = [] ∧
    (start_monitoring stIdle envNoDevice).fst =
      { stIdle with desktop_connection := some ConnState.connOpen, device_id := none } :=
  ⟨rfl, rfl, rfl, C7_no_device_leaves_channel_open stIdle envNoDevice rfl rfl rfl⟩

/-- Claim C8 (confirmed): from a monitoring state, `stop_monitoring` leaves
`is_monitoring` false with the subprocess handle cleared; a second call (with
any transport behavior) returns the state unchanged, and `stop_adb_logcat`
on the already-stopped handle is a no-op.  All branches are total — internal
status-send and close failures are caught in the source. -/
theorem C8_stop_idempotent (st : BridgeState) (b1 b2 : Bool)
    (h : st.is_monitoring = true) :
    (stop_monitoring st b1).is_monitoring = false ∧
    (stop_monitoring st b1).adb_process = none ∧
    stop_monitoring (stop_monitoring st b1) b2 = stop_monitoring st b1 ∧
    stop_adb_logcat (stop_monitoring st b1) = stop_monitoring st b1 := by
  obtain ⟨conn, mon, dev, proc⟩ := st
  simp only at h
  subst h
  cases conn <;> cases proc <;> simp [stop_monitoring, stop_adb_logcat]

/-- Witness for `C8_stop_idempotent` at the active fixture. -/
theorem C8_stop_idempotent_witness :
    stConnected.is_monitoring = true ∧
    ((stop_monitoring stConnected true).is_monitoring = false ∧
      (stop_monitoring stConnected true).adb_process = none ∧
      stop_monitoring (stop_monitoring stConnected true) false
        = stop_monitoring stConnected true ∧
      stop_adb_logcat (stop_monitoring stConnected true) = stop_monitoring stConnected true) :=
  ⟨rfl, C8_stop_idempotent stConnected true false rfl⟩

/-- Claim C9 counterexample: the Event actually sent over a connected channel
carries `source = "adb_bridge"`, not `"bridge"` as the claim states. -/
theorem C9_counterexample :
    (send_error_to_desktop stConnected true 42 sampleEvent).snd ≠
      SendResult.sent { data := sampleEvent, source := "bridge", timestamp_sent := 42 } ∧
    (send_error_to_desktop stConnected true 42 sampleEvent).snd =
      SendResult.sent { data := sampleEvent, source := "adb_bridge", timestamp_sent := 42 } := by
  exact ⟨by decide, by decide⟩

/-- Claim C9 (amended): on a connected channel with a working transport,
every Event is finalized before sending with `source = "adb_bridge"` and
`timestamp_sent` set to the current time, and passed to the channel's send,
which leaves the bridge state unchanged. -/
theorem C9_event_stamped (st : BridgeState) (now : Nat) (e : AndroidError)
    (h : st.desktop_connection = some ConnState.connOpen) :
    (send_error_to_desktop st true now e).snd =
      SendResult.sent { data := e, source := "adb_bridge", timestamp_sent := now } ∧
    (send_error_to_desktop st true now e).fst = st := by
  unfold send_error_to_desktop
  rw [h]
  exact ⟨rfl, rfl⟩

/-- Witness for `C9_event_stamped` at the connected fixture. -/
theorem C9_event_stamped_witness :
    stConnected.desktop_connection = some ConnState.connOpen ∧
    ((send_error_to_desktop stConnected true 42 sampleEvent).snd =
        SendResult.sent { data := sampleEvent, source := "adb_bridge", timestamp_sent := 42 } ∧
      (send_error_to_desktop stConnected true 42 sampleEvent).fst = stConnected) :=
  ⟨rfl, C9_event_stamped stConnected 42 sampleEvent rfl⟩

/-- Claim C10 (confirmed): `parse_log_line` is total — for every device id
and input line the exception-explicit embedding returns `ok` of exactly the
value of the plain function (an Event or nothing): the guards before the
`try:` cannot raise, every operation inside the `try:` is total on `str`
inputs, and the `except Exception` clause would turn any internal error into
`None` rather than letting it escape to the caller. -/
theorem C10_parse_total (dev : Option String) (line : String) :
    parse_log_line_exc dev line = Except.ok (parse_log_line dev line) := by
  unfold parse_log_line_exc parse_log_line parse_log_line_try
  by_cases h1 : (pyStrip line.data).isEmpty
  · simp [h1]
  · by_cases h2 : (pySplit5 line.data).length < 6 <;> simp [h1, h2]
